import Mathlib

/-!
Formal model of the SynQL schema compiler (crates `synql` and `sql_relations`).

The development shallowly embeds the data model and the operations of the
repository: the table/column/foreign-key schema view, the deny-list pruning of
`SynQL::generate`, the capability-tier selection (`MaximalNumberOfColumns`),
the workspace-name validation of `WorkspaceBuilder`, the check-constraint
expression translator (`TranslateExpression`), the table-list classifier
(`TableListLike::is_table_list_like`) and the contextual-validation filter of
`ColumnSynLike::generate_contextual_validations`.

Queries answered by the external schema collaborator (`sql_traits`), which is
not part of this repository, are modelled from the specification; each such
definition carries a doc comment starting with `Modelled from the spec:`.
Generated token streams are rendered as strings; the rendering conventions are
fixed once and reused everywhere, so equalities between generated fragments
mirror equalities between the emitted token streams.
-/

set_option maxRecDepth 8192

/-- The target-language types handed out by the type/capability bridge
(`ExternalTypeRef`); only the classification queries the compiler consumes
(`is_bool`, `is_numeric`) and a literal-cast operation are modelled. -/
inductive ExtType where
  | boolType
  | f64Type
  | usizeType
  | stringType
  | i16Type
  | i32Type
  | i64Type
  | timestampType
  | otherType (tag : String)
  deriving Repr, DecidableEq

/-- `ExternalTypeRef::is_bool`. -/
def ExtType.isBool : ExtType → Bool
  | .boolType => true
  | _ => false

/-- `ExternalTypeRef::is_numeric`. -/
def ExtType.isNumeric : ExtType → Bool
  | .f64Type | .usizeType | .i16Type | .i32Type | .i64Type => true
  | _ => false

/-- Rendered name of a target type, used by the literal cast. -/
def ExtType.renderName : ExtType → String
  | .boolType => "bool"
  | .f64Type => "f64"
  | .usizeType => "usize"
  | .stringType => "String"
  | .i16Type => "i16"
  | .i32Type => "i32"
  | .i64Type => "i64"
  | .timestampType => "Timestamp"
  | .otherType tag => tag

/-- Modelled from the spec: the type bridge's literal-casting operation
("render a source literal as a target-type literal", spec section 6). The
code calls `type_hint.cast(value).unwrap()`, panicking when the cast fails;
the model renders numeric casts and fails (`none`) on non-numeric targets. -/
def ExtType.castLit (t : ExtType) (v : String) : Option String :=
  if t.isNumeric then some (t.renderName ++ "::from(" ++ v ++ ")") else none

/-- A column of a table, as exposed by the external schema collaborator:
name, primary-key membership, textual/nullable classification of its
normalized SQL type, and the target-language type the type bridge resolves
it to (`none` when the mapping is unresolvable, which the code treats as a
fatal panic). -/
structure Column where
  name : String
  isPrimaryKey : Bool
  isTextual : Bool
  isNullable : Bool
  extType : Option ExtType
  deriving Repr, DecidableEq

/-- A foreign key: host columns of the owning table, the referenced table and
its referenced columns (spec section 3). -/
structure ForeignKey where
  hostColumns : List String
  referencedTable : String
  referencedColumns : List String
  deriving Repr, DecidableEq

/-- SQL literal values (`sqlparser::ast::Value`), restricted to the variants
the expression compiler supports; `otherValue` stands for every unsupported
variant (which the code rejects with an unimplemented panic). -/
inductive Value where
  | boolean (b : Bool)
  | number (s : String)
  | singleQuotedString (s : String)
  | otherValue (tag : String)
  deriving Repr, DecidableEq

/-- `sqlparser::ast::BinaryOperator`, restricted to the variants the translator
handles plus a stand-in for every other operator. -/
inductive BinaryOperator where
  | eq
  | notEq
  | gt
  | lt
  | gtEq
  | ltEq
  | andOp
  | orOp
  | plus
  | minus
  | multiply
  | divide
  | modulo
  | otherOp (tag : String)
  deriving Repr, DecidableEq

/-- `sqlparser::ast::CastKind`: only the double-colon form is supported by the
translator, any other kind is a stand-in that triggers a fatal failure. -/
inductive CastKind where
  | doubleColon
  | otherKind (tag : String)
  deriving Repr, DecidableEq

/-- The check-constraint expression grammar consumed by the translator
(subset of `sqlparser::ast::Expr`): identifiers, literals, binary operations,
nesting, the double-colon cast, IS [NOT] NULL and function calls with unnamed
expression arguments (the modelled grammar subset carries no FORMAT clause,
window specification or named argument, which the code rejects up front);
`otherExpr` stands for every unsupported expression shape. -/
inductive Expr where
  | identifier (name : String)
  | exprValue (v : Value)
  | binaryOp (left : Expr) (op : BinaryOperator) (right : Expr)
  | nested (e : Expr)
  | castExpr (kind : CastKind) (e : Expr)
  | isNull (e : Expr)
  | isNotNull (e : Expr)
  | functionCall (fname : String) (args : List Expr)
  | otherExpr (tag : String)
  deriving Repr

/-- A check constraint: its expression tree, the names of the columns it
references, and the two classifications the external collaborator computes
for it (`is_tautological`, `is_mutual_nullability_constraint`), carried here
as the collaborator's answers. -/
structure CheckConstraint where
  ccName : String
  expression : Expr
  columnNames : List String
  isTautological : Bool
  isMutualNullability : Bool
  deriving Repr

/-- A table: ordered columns, foreign keys, check constraints, plus the
external collaborator's answer to `has_surrogate_primary_key`. -/
structure Table where
  name : String
  columns : List Column
  foreignKeys : List ForeignKey
  checkConstraints : List CheckConstraint
  hasSurrogatePrimaryKey : Bool
  deriving Repr

/-- `TableLike::number_of_columns`. -/
def Table.numberOfColumns (t : Table) : Nat :=
  t.columns.length

/-- Looks a column of the table up by name. -/
def Table.findColumn (t : Table) (n : String) : Option Column :=
  t.columns.find? (fun c => c.name = n)

/-- A database: the catalog name, the tables, and the external collaborator's
answer to `root_tables` (the names of the root tables). -/
structure Database where
  catalogName : String
  tables : List Table
  roots : List String
  deriving Repr

/-- `DatabaseLike`-style lookup of a table by name. -/
def Database.findTable (db : Database) (n : String) : Option Table :=
  db.tables.find? (fun t => t.name = n)

/-- Modelled from the spec: `root_tables()` of the external schema
collaborator (spec sections 4.3 and 6). Its implementation lives outside this
repository; the database view carries the collaborator's answer as the list
`roots` of root-table names, and this query returns the tables so named. -/
def Database.rootTablesList (db : Database) : List Table :=
  db.tables.filter (fun t => db.roots.contains t.name)

/-- There is a foreign-key chain of at least one edge from table `a` to table
`b`, following at most `fuel` edges: every foreign key is a directed edge from
its host table to its referenced table (spec section 3, "Dependency Graph"). -/
def reachesStep (db : Database) : Nat → String → String → Bool
  | 0, _, _ => false
  | fuel + 1, a, b =>
    match db.findTable a with
    | none => false
    | some t =>
      t.foreignKeys.any (fun fk =>
        fk.referencedTable = b || reachesStep db fuel fk.referencedTable b)

/-- Modelled from the spec: `TableLike::refers_to` of the external schema
collaborator — a foreign-key chain starting at this table reaches the target
table (spec section 4.1, "at least one root table has a foreign key chain
reaching this table"). -/
def Table.refersTo (t : Table) (db : Database) (target : Table) : Bool :=
  reachesStep db db.tables.length t.name target.name

/-- Modelled from the spec: `TableLike::depends_on` of the external schema
collaborator, on table names. Per the spec a denied table itself and every
table transitively depending on it through any foreign-key chain are excluded
(spec sections 4.3 and 8), and `SynQL::skip_table` excludes exactly the tables
for which `depends_on` a denied table holds, so `depends_on` is the
reflexive-transitive reachability along foreign-key edges. -/
def dependsOnName (db : Database) (a b : String) : Bool :=
  a = b || reachesStep db db.tables.length a b

/-- `TableLike::depends_on` on table values. -/
def Table.dependsOn (t : Table) (db : Database) (d : Table) : Bool :=
  dependsOnName db t.name d.name

/-- `TableListLike::is_table_list_like`
(src/sql_relations/src/traits/table_list_like.rs): the table has exactly one
column, that column is the primary key and textual, and some root table
refers to this table. -/
def Table.isTableListLike (t : Table) (db : Database) : Bool :=
  if t.numberOfColumns ≠ 1 then false
  else
    match t.columns.head? with
    | none => false
    | some column =>
      if !column.isPrimaryKey || !column.isTextual then false
      else db.rootTablesList.any (fun r => r.refersTo db t)

/-- Per-run configuration of `SynQL` (the fields of the `SynQL` struct in
src/synql/src/structs/synql.rs that `generate` consumes). -/
structure SynQLConfig where
  name : Option String
  denyList : List Table
  version : Nat × Nat × Nat
  edition : Nat
  generateWorkspaceToml : Bool
  generateRustfmt : Bool
  sinkCrateName : Option String
  dagSinkPart : Option String
  clearExisting : Bool
  memberPaths : List String
  path : String
  crateBasePath : String
  deriving Repr

/-- `SynQL::skip_table`: the table is skipped when it depends on some table
of the deny list. -/
def skipTable (db : Database) (cfg : SynQLConfig) (t : Table) : Bool :=
  cfg.denyList.any (fun d => t.dependsOn db d)

/-- `MaximalNumberOfColumns`
(src/synql/src/structs/external_crate/diesel_crate.rs): the supported
capability tiers of the target ORM layer. -/
inductive MaximalNumberOfColumns where
  | columns16
  | columns32
  | columns64
  | columns128
  deriving Repr, DecidableEq

/-- The column capacity of a tier. -/
def MaximalNumberOfColumns.toNat : MaximalNumberOfColumns → Nat
  | .columns16 => 16
  | .columns32 => 32
  | .columns64 => 64
  | .columns128 => 128

/-- `MaximalNumberOfColumns::as_diesel_feature_str`. -/
def MaximalNumberOfColumns.asDieselFeatureStr : MaximalNumberOfColumns → Option String
  | .columns16 => none
  | .columns32 => some "32-column-tables"
  | .columns64 => some "64-column-tables"
  | .columns128 => some "128-column-tables"

/-- The error type of the `synql` crate, restricted to the variant the model
produces (`Error::TooManyColumns`). -/
inductive SynQLError where
  | tooManyColumns (n : Nat)
  deriving Repr, DecidableEq

/-- `TryFrom<usize> for MaximalNumberOfColumns`: selects the tier for a column
count, rejecting counts above 128. -/
def tryFromColumns (value : Nat) : Except SynQLError MaximalNumberOfColumns :=
  if value ≤ 16 then .ok .columns16
  else if value ≤ 32 then .ok .columns32
  else if value ≤ 64 then .ok .columns64
  else if value ≤ 128 then .ok .columns128
  else .error (.tooManyColumns value)

/-- `Iterator::max().unwrap_or(0)` over a list of counts. -/
def listMax (l : List Nat) : Nat :=
  l.foldr max 0

/-- `WorkspaceBuilder` (src/synql/src/structs/workspace/builder.rs): the
fields relevant to validation and construction. -/
structure WorkspaceBuilder where
  name : String
  path : String
  crateBasePath : String
  version : Nat × Nat × Nat
  edition : Nat
  deriving Repr, DecidableEq

/-- `WorkspaceBuilder::default()`. -/
def workspaceBuilderDefault : WorkspaceBuilder :=
  { name := "synql-workspace"
    path := "synql_workspace"
    crateBasePath := "."
    version := (0, 1, 0)
    edition := 2024 }

/-- `WorkspaceBuilderError`. -/
inductive WorkspaceBuilderError where
  | invalidName
  deriving Repr, DecidableEq

/-- `WorkspaceBuilder::name` (renamed `setName` here because the Lean field
projection already takes that name): rejects a name that is empty after
trimming or contains a space, and otherwise stores it. -/
def WorkspaceBuilder.setName (b : WorkspaceBuilder) (n : String) :
    Except WorkspaceBuilderError WorkspaceBuilder :=
  if n.trim.isEmpty || n.contains (' ') then .error .invalidName
  else .ok { b with name := n }

/-- The `Workspace` value `generate` builds through the builder chain: the
validated name, paths, version, edition and the two capability tiers passed to
the diesel-related external crates (the remaining external-crate registry
entries are fixed data irrelevant to the claims). -/
structure WorkspaceModel where
  name : String
  path : String
  crateBasePath : String
  version : Nat × Nat × Nat
  edition : Nat
  dieselTier : MaximalNumberOfColumns
  buildersTier : MaximalNumberOfColumns
  deriving Repr

/-- Modelled from the spec: the naming/casing utilities are external
collaborators (spec section 1); identifiers are derived from names by
replacing dashes with underscores, and schema names are assumed to already be
snake case, mirroring `table_snake_name`/`column_snake_ident`. -/
def rustify (s : String) : String :=
  String.mk (s.data.map (fun c => if c = ('-') then ('_') else c))

/-- `TableSynLike::crate_name`: the per-table generated crate is named after
the workspace and the table. -/
def crateName (w : WorkspaceModel) (t : Table) : String :=
  w.name ++ "-" ++ t.name

/-- `TableSynLike::crate_ident`. -/
def crateIdent (w : WorkspaceModel) (t : Table) : String :=
  rustify (crateName w t)

/-- `TableSynLike::crate_relative_path`: crate base path joined with the
table name. -/
def crateRelativePath (w : WorkspaceModel) (t : Table) : String :=
  w.crateBasePath ++ "/" ++ t.name

/-- Filesystem effects of a generation run, in the order `generate` performs
them; every write carries the full content so byte-identity of outputs is
equality of effect lists. -/
inductive Effect where
  | clearDir
  | createDir (path : String)
  | writeFile (path : String) (content : String)
  deriving Repr, DecidableEq

/-- Outcome of a generation run: the report of a successful run (task names
with the durations the time tracker measured), a typed error, or a panic. -/
inductive GenOutcome where
  | ok (report : List (String × Nat))
  | errored (e : SynQLError)
  | panicked (msg : String)
  deriving Repr, DecidableEq

/-- Modelled from the spec: `write_crate_toml` is declared in
src/synql/src/structs/synql.rs but its module file is absent from the
sources; per the spec it emits the per-table manifest fragment as a pure
function of the schema table and the workspace configuration. -/
def crateTomlContent (w : WorkspaceModel) (t : Table) : String :=
  "[package] " ++ crateName w t ++ " v" ++ toString w.version.1 ++ "."
    ++ toString w.version.2.1 ++ "." ++ toString w.version.2.2
    ++ " edition " ++ toString w.edition

/-- Modelled from the spec: `write_crate_lib` is declared in
src/synql/src/structs/synql.rs but its module file is absent from the
sources; per the spec it emits the per-table module (field struct,
relationship decorations, validation implementation) as a pure function of
the schema table and the workspace configuration. -/
def crateLibContent (w : WorkspaceModel) (t : Table) : String :=
  "module " ++ crateIdent w t ++ " columns "
    ++ String.intercalate ", " (t.columns.map Column.name)

/-- The re-export block `write_sink_crate_lib` emits for one admitted table
(src/synql/src/structs/synql/write_sink_crate_lib.rs). -/
def sinkReExport (w : WorkspaceModel) (t : Table) : String :=
  "pub use " ++ crateIdent w t ++ "; pub use " ++ crateIdent w t ++ "::"
    ++ rustify t.name ++ "; pub use " ++ crateIdent w t ++ "::"
    ++ rustify t.name ++ "_struct;"

/-- `SynQL::write_sink_crate_lib`: crate documentation line followed by the
re-exports of every admitted table. -/
def sinkCrateLibContent (db : Database) (cfg : SynQLConfig) (w : WorkspaceModel)
    (sinkCrateName : String) : String :=
  "Auto-generated sink crate `" ++ sinkCrateName
    ++ "` which re-exports all table crates. "
    ++ String.intercalate " "
      ((db.tables.filter (fun t => !skipTable db cfg t)).map (sinkReExport w))

/-- `SynQL::write_sink_crate_toml`: package header, one workspace dependency
per admitted table, and the lint section. -/
def sinkCrateTomlContent (db : Database) (cfg : SynQLConfig) (w : WorkspaceModel)
    (sinkCrateName : String) : String :=
  "[package] name = " ++ sinkCrateName ++ " version = "
    ++ toString w.version.1 ++ "." ++ toString w.version.2.1 ++ "."
    ++ toString w.version.2.2 ++ " edition.workspace = true [dependencies] "
    ++ String.intercalate " "
      ((db.tables.filter (fun t => !skipTable db cfg t)).map
        (fun t => crateName w t ++ ".workspace = true"))
    ++ " [lints] workspace = true"

/-- `Workspace::write_rustfmt`: the fixed formatting configuration, the
edition being its only varying input. -/
def rustfmtContent (edition : Nat) : String :=
  "edition = " ++ toString edition
    ++ " max_width = 100 use_small_heuristics = Max reorder_imports = true"
    ++ " group_imports = StdExternalCrate imports_granularity = Crate"
    ++ " reorder_modules = true wrap_comments = true"
    ++ " format_code_in_doc_comments = true comment_width = 80"
    ++ " normalize_comments = true normalize_doc_attributes = true"
    ++ " force_multiline_blocks = true fn_single_line = false"
    ++ " where_single_line = false"

/-- Modelled from the spec: `table_dag()` of the external schema collaborator
returns the tables in a topological order (spec section 4.3); the claims
depend only on which tables appear, so the model keeps the declaration
order. -/
def Database.tableDag (db : Database) : List Table :=
  db.tables

/-- The names of the tables whose per-table crate (manifest and module) is
emitted by `generate`: tables of the dependency DAG that are not skipped. -/
def generatedTableNames (db : Database) (cfg : SynQLConfig) : List String :=
  (db.tableDag.filter (fun t => !skipTable db cfg t)).map Table.name

/-- The names of the tables listed in the `members` array of the workspace
manifest by `SynQL::write_toml`: every table of the database that is not
skipped. -/
def workspaceMemberTableNames (db : Database) (cfg : SynQLConfig) : List String :=
  (db.tables.filter (fun t => !skipTable db cfg t)).map Table.name

/-- `SynQL::write_toml`: the workspace manifest, with the member paths, the
admitted tables' member entries and dependencies, the optional sink members,
the diesel feature tier and the lint tables. -/
def workspaceTomlContent (db : Database) (cfg : SynQLConfig) (w : WorkspaceModel) : String :=
  "[workspace] resolver = 2 members = ["
    ++ String.intercalate ", "
      (cfg.memberPaths
        ++ (db.tables.filter (fun t => !skipTable db cfg t)).map
            (fun t => crateRelativePath w t)
        ++ (match cfg.sinkCrateName with
            | some s => [w.crateBasePath ++ "/" ++ s]
            | none => [])
        ++ (match cfg.dagSinkPart with
            | some pfx =>
              (db.rootTablesList.filter (fun t => !skipTable db cfg t)).map
                (fun t => w.crateBasePath ++ "/" ++ (pfx ++ t.name))
            | none => []))
    ++ "] [workspace.package] edition = " ++ toString w.edition
    ++ " [workspace.dependencies] "
    ++ String.intercalate " "
      ((db.tables.filter (fun t => !skipTable db cfg t)).map
        (fun t => crateName w t ++ ".workspace = true"))
    ++ " diesel features "
    ++ (match w.dieselTier.asDieselFeatureStr with
        | some f => f
        | none => "default")
    ++ " [workspace.lints.rust] missing_docs = forbid"

/-- Modelled from the spec: the extension foreign keys of a table — foreign
keys whose host columns are all primary-key columns, linking a specialization
table to the table it extends (spec section 3, vertical same-as). -/
def Table.extensionForeignKeys (t : Table) : List ForeignKey :=
  t.foreignKeys.filter (fun fk =>
    !fk.hostColumns.isEmpty
      && fk.hostColumns.all (fun n =>
        match t.findColumn n with
        | some c => c.isPrimaryKey
        | none => false))

/-- Names of the tables reachable from `a` through extension foreign keys,
following at most `fuel` edges. -/
def ancestorNamesStep (db : Database) : Nat → String → List String
  | 0, _ => []
  | fuel + 1, a =>
    match db.findTable a with
    | none => []
    | some t =>
      (t.extensionForeignKeys.map (fun fk =>
        fk.referencedTable :: ancestorNamesStep db fuel fk.referencedTable)).flatten

/-- Modelled from the spec: `ancestral_extended_tables` of the external schema
collaborator — the table's full ancestor-extended hierarchy, the tables
reachable through chains of extension foreign keys (spec section 4.4). -/
def Table.ancestralExtendedTables (t : Table) (db : Database) : List Table :=
  ((ancestorNamesStep db db.tables.length t.name).dedup).filterMap db.findTable

/-- Total column count of a table's ancestor-extended hierarchy: the
ancestors' column counts summed, plus the table's own
(src/synql/src/structs/synql.rs lines 247-266). -/
def hierarchyColumns (db : Database) (t : Table) : Nat :=
  ((t.ancestralExtendedTables db).map Table.numberOfColumns).sum + t.numberOfColumns

/-- The non-skipped tables of the database. -/
def admittedTables (db : Database) (cfg : SynQLConfig) : List Table :=
  db.tables.filter (fun t => !skipTable db cfg t)

/-- The first column-count maximum `generate` computes: the largest column
count among admitted tables (`max().unwrap_or(0)`). -/
def maxAdmittedColumns (db : Database) (cfg : SynQLConfig) : Nat :=
  listMax ((admittedTables db cfg).map Table.numberOfColumns)

/-- The second column-count maximum `generate` computes: the largest
ancestor-extended hierarchy column count among admitted tables. -/
def maxHierarchyColumns (db : Database) (cfg : SynQLConfig) : Nat :=
  listMax ((admittedTables db cfg).map (hierarchyColumns db))

/-- The names of the tasks the time tracker records, in the order `generate`
runs them. -/
def taskNamesFor (db : Database) (cfg : SynQLConfig) : List String :=
  ((db.tableDag.filter (fun t => !skipTable db cfg t)).map
      (fun _ => ["writing_crate_toml", "writing_crate_lib"])).flatten
    ++ (match cfg.sinkCrateName with
        | some _ => ["writing_sink_crate_toml", "writing_sink_crate_lib"]
        | none => [])
    ++ (match cfg.dagSinkPart with
        | some pfx =>
          ((db.rootTablesList.filter (fun t => !skipTable db cfg t)).map
            (fun t =>
              ["writing_sink_crate_toml_" ++ (pfx ++ t.name),
               "writing_sink_crate_lib_" ++ (pfx ++ t.name)])).flatten
        | none => [])
    ++ (if cfg.generateWorkspaceToml then ["workspace_toml"] else [])
    ++ (if cfg.generateRustfmt then ["workspace_rustfmt"] else [])

/-- `SynQL::generate` (src/synql/src/structs/synql.rs lines 232-403): selects
the two capability tiers, validates the workspace name (panicking on an
invalid one, through `WorkspaceBuilder::name(..).expect(..)`), optionally
clears the destination, emits every admitted table's crate in dependency
order, the optional sink crate, the optional per-root DAG sink crates, the
optional workspace manifest and the optional rustfmt configuration. The model
returns the ordered filesystem effects together with the outcome; the `clock`
argument stands for the wall clock the time tracker reads, and only the
report depends on it. -/
def generate (db : Database) (cfg : SynQLConfig) (clock : Nat → Nat) :
    List Effect × GenOutcome :=
  match tryFromColumns (maxAdmittedColumns db cfg) with
  | .error e => ([], .errored e)
  | .ok dieselTier =>
    match tryFromColumns (maxHierarchyColumns db cfg) with
    | .error e => ([], .errored e)
    | .ok buildersTier =>
      match workspaceBuilderDefault.setName (cfg.name.getD db.catalogName) with
      | .error _ => ([], .panicked "Invalid workspace name")
      | .ok wb =>
        let w : WorkspaceModel :=
          { name := wb.name
            path := cfg.path
            crateBasePath := cfg.crateBasePath
            version := cfg.version
            edition := cfg.edition
            dieselTier := dieselTier
            buildersTier := buildersTier }
        let clearE := if cfg.clearExisting then [Effect.clearDir] else []
        let tableE :=
          ((db.tableDag.filter (fun t => !skipTable db cfg t)).map (fun t =>
            [Effect.createDir (w.path ++ "/" ++ crateRelativePath w t),
             Effect.writeFile (w.path ++ "/" ++ crateRelativePath w t ++ "/Cargo.toml")
               (crateTomlContent w t),
             Effect.writeFile (w.path ++ "/" ++ crateRelativePath w t ++ "/src/lib.rs")
               (crateLibContent w t)])).flatten
        let sinkE :=
          match cfg.sinkCrateName with
          | none => []
          | some s =>
            let p := w.path ++ "/" ++ w.crateBasePath ++ "/" ++ s
            [Effect.createDir p,
             Effect.writeFile (p ++ "/Cargo.toml") (sinkCrateTomlContent db cfg w s),
             Effect.createDir (p ++ "/src"),
             Effect.writeFile (p ++ "/src/lib.rs") (sinkCrateLibContent db cfg w s)]
        let dagSinkE :=
          match cfg.dagSinkPart with
          | none => []
          | some pfx =>
            ((db.rootTablesList.filter (fun t => !skipTable db cfg t)).map (fun rt =>
              let s := pfx ++ rt.name
              let p := w.path ++ "/" ++ w.crateBasePath ++ "/" ++ s
              [Effect.createDir p,
               Effect.writeFile (p ++ "/Cargo.toml") (sinkCrateTomlContent db cfg w s),
               Effect.createDir (p ++ "/src"),
               Effect.writeFile (p ++ "/src/lib.rs") (sinkCrateLibContent db cfg w s)])).flatten
        let tomlE :=
          if cfg.generateWorkspaceToml then
            [Effect.writeFile (w.path ++ "/Cargo.toml") (workspaceTomlContent db cfg w)]
          else []
        let fmtE :=
          if cfg.generateRustfmt then
            [Effect.writeFile (w.path ++ "/rustfmt.toml") (rustfmtContent w.edition)]
          else []
        let report := ((taskNamesFor db cfg).enum).map (fun p => (p.2, clock p.1))
        (clearE ++ tableE ++ sinkE ++ dagSinkE ++ tomlE ++ fmtE, .ok report)

/-- `Column::column_snake_ident`: the generated field identifier of a column
(the naming utility is an external collaborator; names are assumed snake
case, dashes become underscores). -/
def Column.snakeIdent (c : Column) : String :=
  rustify c.name

/-- `invert_operator`
(src/synql/src/traits/check_constraint/translate_expression.rs lines 38-50):
the direction-inverted comparison operator; unsupported operators make the
code panic, modelled as `none`. -/
def invertOperator : BinaryOperator → Option BinaryOperator
  | .eq => some .eq
  | .notEq => some .notEq
  | .gt => some .lt
  | .lt => some .gt
  | .gtEq => some .ltEq
  | .ltEq => some .gtEq
  | _ => none

/-- Rendered comparison operators appearing in generated guards. -/
inductive CmpOp where
  | eqeq
  | neq
  | ltOp
  | leOp
  | gtOp
  | geOp
  deriving Repr, DecidableEq

/-- `syn_operator` (translate_expression.rs lines 53-65): the target-language
token of a comparison operator; unsupported operators panic (`none`). -/
def synOperator : BinaryOperator → Option CmpOp
  | .eq => some .eqeq
  | .notEq => some .neq
  | .gt => some .gtOp
  | .lt => some .ltOp
  | .gtEq => some .geOp
  | .ltEq => some .leOp
  | _ => none

/-- The `syn::BinOp` rendering used by the comparison branch of
`inner_parse`; operators outside the six comparisons never reach it. -/
def cmpRender : BinaryOperator → String
  | .eq => "=="
  | .notEq => "!="
  | .gt => ">"
  | .lt => "<"
  | .gtEq => ">="
  | .ltEq => "<="
  | _ => ""

/-- The `syn::BinOp` rendering used by the arithmetic branch of
`inner_parse`. -/
def arithRender : BinaryOperator → String
  | .plus => "+"
  | .minus => "-"
  | .multiply => "*"
  | .divide => "/"
  | .modulo => "%"
  | _ => ""

/-- The constant-folding match of the AND branch of `inner_parse`
(translate_expression.rs lines 710-717), on the rendered code text of the two
operands. -/
def foldAndCode (l r : String) : String :=
  match l, r with
  | "true", "true" => "true"
  | "false", _ => "false"
  | _, "false" => "false"
  | "true", _ => r
  | _, "true" => l
  | _, _ => l ++ " && " ++ r

/-- The constant-folding match of the OR branch of `inner_parse`
(translate_expression.rs lines 738-745). -/
def foldOrCode (l r : String) : String :=
  match l, r with
  | "false", "false" => "false"
  | "true", _ => "true"
  | _, "true" => "true"
  | "false", _ => r
  | _, "false" => l
  | _, _ => l ++ " || " ++ r

/-- Modelled from the spec: one entry of the function registry exposed by the
type bridge (spec section 6, `lookup_function`): the per-argument expected
types and the callable reference to emit. The code panics when a function,
one of its argument types, or its external reference is missing; the model
registry carries resolved entries, and an absent entry is the panic. -/
structure FunctionModel where
  fnName : String
  argTypes : List ExtType
  refCode : String
  deriving Repr, DecidableEq

/-- The state of `TranslateExpression`: the table owning the check
constraint, the columns the constraint references, the contextual columns
(already known present) and the function registry. -/
structure TranslateCtx where
  tableName : String
  columns : List Column
  contextualColumns : List String
  functions : List FunctionModel
  deriving Repr

/-- `TranslateExpression::column`: looks an involved column up by name,
panicking (`none`) when absent. -/
def TranslateCtx.findColumn (ctx : TranslateCtx) (n : String) : Option Column :=
  ctx.columns.find? (fun c => c.name = n)

/-- `TranslateExpression::is_contextual_column`; the source compares column
values, and columns are unique by name within a table (spec section 3
invariant), so membership by name is the faithful comparison. -/
def TranslateCtx.isContextualColumn (ctx : TranslateCtx) (c : Column) : Bool :=
  ctx.contextualColumns.contains c.name

/-- The generated identifier of the table, used in `crate::<table>::...`
paths of generated diagnostics. -/
def TranslateCtx.tableIdent (ctx : TranslateCtx) : String :=
  rustify ctx.tableName

/-- `TranslateExpression::parse_value` (translate_expression.rs lines
589-612): renders a literal, resolving numbers against the type hint
(panicking without one) and rejecting unsupported values. -/
def parseValue (v : Value) (hint : Option ExtType) : Option (String × ExtType) :=
  match v with
  | .boolean b => some ((if b then "true" else "false"), .boolType)
  | .number s =>
    match hint with
    | some ty => (ty.castLit s).map (fun c => (c, ty))
    | none => none
  | .singleQuotedString s => some ("\"" ++ s ++ "\"", .stringType)
  | .otherValue _ => none

/-- `TranslateExpression::parse_column_value` (lines 561-576): resolves the
column's target type (panicking when the bridge has none) and parses the
value against it. -/
def parseColumnValue (column : Column) (v : Value) : Option (String × ExtType) :=
  match column.extType with
  | none => none
  | some ty => parseValue v (some ty)

/-- The `crate::<table>::<column>::NAME` attribute path rendered into
`replace_field_name` calls. -/
def attrPath (tableIdent columnIdent : String) : String :=
  "crate::" ++ tableIdent ++ "::" ++ columnIdent ++ "::NAME"

/-- The `.map_err(...)` block `parse_function` appends, chosen by the number
of scoped columns (translate_expression.rs lines 519-539); zero or more than
two scoped columns panic. -/
def mapErrBlock (tableIdent : String) (scopedCols : List String) : Option String :=
  match scopedCols with
  | [c] => some (".map_err(replace_field_name " ++ attrPath tableIdent c ++ ")")
  | [c1, c2] =>
    some (".map_err(replace_field_names " ++ attrPath tableIdent c1 ++ ", "
      ++ attrPath tableIdent c2 ++ ")")
  | _ => none

mutual

/-- `TranslateExpression::inner_parse` (translate_expression.rs lines
655-938): translates an expression to a `(code, scoped columns, inferred
type)` triple; every `unimplemented!`, failed `expect` or failed lookup of
the source is `none`. -/
def innerParse (ctx : TranslateCtx) (e : Expr) (hint : Option ExtType) :
    Option (String × List String × Option ExtType) :=
  match e with
  | .functionCall fnName args =>
    match parseFunctionModel ctx fnName args with
    | none => none
    | some (code, retTy) => some (code, [], retTy)
  | .castExpr kind inner =>
    match kind with
    | .doubleColon => innerParse ctx inner hint
    | .otherKind _ => none
  | .nested inner => innerParse ctx inner hint
  | .identifier idName =>
    match ctx.findColumn idName with
    | none => none
    | some column =>
      match column.extType with
      | none => none
      | some ty => some (column.snakeIdent, [column.snakeIdent], some ty)
  | .binaryOp l op r =>
    match op with
    | .andOp =>
      match innerParse ctx l none, innerParse ctx r none with
      | some (lc, lsc, lty), some (rc, rsc, rty) =>
        if !lsc.isEmpty || !rsc.isEmpty then none
        else
          match lty, rty with
          | some ltv, some rtv =>
            if ltv.isBool && rtv.isBool then
              some (foldAndCode lc rc, [], some ExtType.boolType)
            else none
          | _, _ => none
      | _, _ => none
    | .orOp =>
      match innerParse ctx l none, innerParse ctx r none with
      | some (lc, lsc, lty), some (rc, rsc, rty) =>
        if !lsc.isEmpty || !rsc.isEmpty then none
        else
          match lty, rty with
          | some ltv, some rtv =>
            if ltv.isBool && rtv.isBool then
              some (foldOrCode lc rc, [], some ExtType.boolType)
            else none
          | _, _ => none
      | _, _ => none
    | .eq | .notEq | .gt | .lt | .gtEq | .ltEq =>
      match innerParse ctx l none with
      | none => none
      | some (lc, _, ltyOpt) =>
        match ltyOpt with
        | none => none
        | some lty =>
          match innerParse ctx r (some lty) with
          | none => none
          | some (rc, _, rtyOpt) =>
            match rtyOpt with
            | none => none
            | some rty =>
              if lty ≠ rty then none
              else some (lc ++ " " ++ cmpRender op ++ " " ++ rc, [],
                some ExtType.boolType)
    | .plus | .minus | .multiply | .divide | .modulo =>
      match innerParse ctx l hint, innerParse ctx r hint with
      | some (lc, _, ltyOpt), some (rc, _, rtyOpt) =>
        if ltyOpt ≠ rtyOpt then none
        else
          match ltyOpt, rtyOpt with
          | some lty, some rty =>
            if lty.isNumeric && rty.isNumeric then
              some (lc ++ " " ++ arithRender op ++ " " ++ rc, [], some lty)
            else none
          | _, _ => none
      | _, _ => none
    | .otherOp _ => none
  | .exprValue v =>
    match parseValue v hint with
    | none => none
    | some (code, ty) => some (code, [], some ty)
  | .isNull inner =>
    match inner with
    | .identifier idName =>
      match ctx.findColumn idName with
      | none => none
      | some column =>
        if !column.isNullable then none
        else if ctx.isContextualColumn column then
          some ("false", [], some ExtType.boolType)
        else
          some (column.snakeIdent ++ ".is_none()", [], some ExtType.boolType)
    | other =>
      match innerParse ctx other none with
      | none => none
      | some (ic, _, _) => some (ic ++ ".is_none()", [], some ExtType.boolType)
  | .isNotNull inner =>
    match inner with
    | .identifier idName =>
      match ctx.findColumn idName with
      | none => none
      | some column =>
        if !column.isNullable then none
        else if ctx.isContextualColumn column then
          some ("true", [], some ExtType.boolType)
        else
          some (column.snakeIdent ++ ".is_some()", [], some ExtType.boolType)
    | other =>
      match innerParse ctx other none with
      | none => none
      | some (ic, _, _) => some (ic ++ ".is_some()", [], some ExtType.boolType)
  | .otherExpr _ => none
termination_by (sizeOf e, 0)

/-- `TranslateExpression::parse_function` (translate_expression.rs lines
460-547), restricted to the modelled grammar subset (no window
specification, parameters, filter or ODBC syntax, which the code rejects up
front): resolves the function and its argument types in the registry, parses
the arguments, and appends the `.map_err` block chosen by the scoped-column
count; the declared return type of every registry function is `None`. -/
def parseFunctionModel (ctx : TranslateCtx) (fnName : String) (args : List Expr) :
    Option (String × Option ExtType) :=
  match ctx.functions.find? (fun f => f.fnName = fnName) with
  | none => none
  | some f =>
    match parseFunctionArgsModel ctx args f.argTypes with
    | none => none
    | some (codes, scopedCols) =>
      match mapErrBlock ctx.tableIdent scopedCols with
      | none => none
      | some me =>
        some (f.refCode ++ "(" ++ String.intercalate ", " codes ++ ")" ++ me, none)
termination_by (sizeOf args, 1)

/-- `TranslateExpression::parse_function_argument_list` together with
`parse_function_argument_expr` (translate_expression.rs lines 381-438):
checks the arity against the declared argument types (`assert_eq`, a panic on
mismatch), parses each argument with its declared type as hint, rejects
arguments with more than one scoped column, and collects codes and scoped
columns in order. -/
def parseFunctionArgsModel (ctx : TranslateCtx) (args : List Expr)
    (tys : List ExtType) : Option (List String × List String) :=
  match args, tys with
  | [], [] => some ([], [])
  | a :: args2, ty :: tys2 =>
    match innerParse ctx a (some ty) with
    | none => none
    | some (code, scopedCols, _) =>
      if scopedCols.length > 1 then none
      else
        match parseFunctionArgsModel ctx args2 tys2 with
        | none => none
        | some (codes, cols) => some (code :: codes, scopedCols ++ cols)
  | _, _ => none
termination_by (sizeOf args, 0)

end

/-- The relational (two-field) validation errors of the fixed taxonomy. -/
inductive RelErr where
  | equalErr
  | smallerThan
  | strictlySmallerThan
  | greaterThan
  | strictlyGreaterThan
  deriving Repr, DecidableEq

/-- The guard of a generated two-field validation: the two column
identifiers, the comparison emitted between them, and whether each operand is
wrapped in an `is_some_and` presence check. The four wrapping combinations
are exactly the four `compare_op` shapes of `map_expr_to_double_field_error`
(translate_expression.rs lines 172-206). -/
structure GuardedCompare where
  leftColumn : String
  rightColumn : String
  cmp : CmpOp
  leftWrapped : Bool
  rightWrapped : Bool
  deriving Repr, DecidableEq

/-- A generated two-field validation block: the guard and the relational
error (carrying the table and both column names) returned when it fires. -/
structure DoubleFieldCode where
  tableName : String
  err : RelErr
  guard : GuardedCompare
  deriving Repr, DecidableEq

/-- The generated validation blocks of `map_expr_to_validation_error`; each
constructor stands for one distinct `quote!` template of the source, with the
data interpolated into the template as arguments. Single-field comparisons
carry the guard threshold in the column's type (`colValue`) and the reported
threshold (`floatValue`); the guard operator of the value comparisons is
fixed by the constructor, as it is hard-coded per arm in the source. -/
inductive ValidationCode where
  | emptyViolation (table column : String)
  | smallerThanValue (table column colValue floatValue : String)
  | strictlySmallerThanValue (table column colValue floatValue : String)
  | strictlyGreaterThanValue (table column colValue floatValue : String)
  | greaterThanValue (table column colValue floatValue : String)
  | inTheFuture (table column : String) (guardOp : CmpOp)
  | exceedsMaxLength (table column argCode valueUsize : String) (guardOp : CmpOp)
  | doubleField (d : DoubleFieldCode)
  deriving Repr, DecidableEq

/-- `TranslateExpression::map_value_expr_to_single_field_error`
(translate_expression.rs lines 254-336): maps `column OP literal` to a
single-field validation error; unsupported operator/value combinations panic
(`none`). -/
def mapValueExprToSingleFieldError (ctx : TranslateCtx) (ident : String)
    (v : Value) (op : BinaryOperator) : Option ValidationCode :=
  match ctx.findColumn ident with
  | none => none
  | some column =>
    match op with
    | .notEq =>
      if column.isTextual && (v == Value.singleQuotedString "") then
        some (.emptyViolation ctx.tableIdent column.snakeIdent)
      else none
    | .ltEq =>
      match parseColumnValue column v, parseValue v (some .f64Type) with
      | some cv, some fv =>
        some (.smallerThanValue ctx.tableIdent column.snakeIdent cv.1 fv.1)
      | _, _ => none
    | .lt =>
      match parseColumnValue column v, parseValue v (some .f64Type) with
      | some cv, some fv =>
        some (.strictlySmallerThanValue ctx.tableIdent column.snakeIdent cv.1 fv.1)
      | _, _ => none
    | .gt =>
      match parseColumnValue column v, parseValue v (some .f64Type) with
      | some cv, some fv =>
        some (.strictlyGreaterThanValue ctx.tableIdent column.snakeIdent cv.1 fv.1)
      | _, _ => none
    | .gtEq =>
      match parseColumnValue column v, parseValue v (some .f64Type) with
      | some cv, some fv =>
        some (.greaterThanValue ctx.tableIdent column.snakeIdent cv.1 fv.1)
      | _, _ => none
    | _ => none

/-- `TranslateExpression::map_expr_to_double_field_error`
(translate_expression.rs lines 158-252): maps `column OP column` to a guarded
relational error; the guard tests the negation of the operator and each
nullable, non-contextual operand is wrapped in an `is_some_and` presence
check. -/
def mapExprToDoubleFieldError (ctx : TranslateCtx) (left right : String)
    (op : BinaryOperator) : Option ValidationCode :=
  match ctx.findColumn left, ctx.findColumn right with
  | some leftColumn, some rightColumn =>
    let lw := leftColumn.isNullable && !(ctx.isContextualColumn leftColumn)
    let rw := rightColumn.isNullable && !(ctx.isContextualColumn rightColumn)
    let guardWith := fun (c : CmpOp) =>
      GuardedCompare.mk leftColumn.snakeIdent rightColumn.snakeIdent c lw rw
    match op with
    | .notEq => some (.doubleField ⟨ctx.tableIdent, .equalErr, guardWith .eqeq⟩)
    | .ltEq => some (.doubleField ⟨ctx.tableIdent, .smallerThan, guardWith .gtOp⟩)
    | .lt => some (.doubleField ⟨ctx.tableIdent, .strictlySmallerThan, guardWith .geOp⟩)
    | .gt => some (.doubleField ⟨ctx.tableIdent, .strictlyGreaterThan, guardWith .leOp⟩)
    | .gtEq => some (.doubleField ⟨ctx.tableIdent, .greaterThan, guardWith .ltOp⟩)
    | _ => none
  | _, _ => none

/-- Result of `map_expr_to_validation_error`: a produced validation block, a
`None` of the source (the expression is not a recognized validation-error
shape and falls through to the generic translation), or a panic raised inside
one of the arms. -/
inductive MapResult where
  | fatal
  | notApplicable
  | code (c : ValidationCode)
  deriving Repr, DecidableEq

/-- Lifts a single-arm result into `MapResult` (a panic is `fatal`). -/
def liftSingle : Option ValidationCode → MapResult
  | none => .fatal
  | some c => .code c

/-- `TranslateExpression::map_expr_to_validation_error`
(translate_expression.rs lines 81-152), with the five arms in source order:
`ident OP value`, `ident OP NOW()` (guarded on the function name), `length(x)
OP value` (guarded on the function name), `value OP ident` (through
`invert_operator`) and `ident OP ident`; everything else falls through. -/
def mapExprToValidationError (ctx : TranslateCtx) (e : Expr) : MapResult :=
  match e with
  | .binaryOp l op r =>
    match l, r with
    | .identifier ident, .exprValue v =>
      liftSingle (mapValueExprToSingleFieldError ctx ident v op)
    | .identifier ident, .functionCall fnName _ =>
      if fnName = "NOW" then
        match ctx.findColumn ident with
        | none => .fatal
        | some column =>
          if op == BinaryOperator.ltEq || op == BinaryOperator.lt then
            match invertOperator op with
            | none => .fatal
            | some iop =>
              match synOperator iop with
              | none => .fatal
              | some g => .code (.inTheFuture ctx.tableIdent column.snakeIdent g)
          else .fatal
      else .notApplicable
    | .functionCall fnName fnArgs, .exprValue v =>
      if fnName = "length" then
        match parseFunctionArgsModel ctx fnArgs [ExtType.stringType] with
        | none => .fatal
        | some (codes, cols) =>
          match cols with
          | [column] =>
            match codes.head? with
            | none => .fatal
            | some parsedArg =>
              match parseValue v (some .usizeType) with
              | none => .fatal
              | some vu =>
                match invertOperator op with
                | none => .fatal
                | some iop =>
                  match synOperator iop with
                  | none => .fatal
                  | some g =>
                    .code (.exceedsMaxLength ctx.tableIdent column parsedArg vu.1 g)
          | _ => .fatal
      else .notApplicable
    | .exprValue v, .identifier ident =>
      match invertOperator op with
      | none => .fatal
      | some iop => liftSingle (mapValueExprToSingleFieldError ctx ident v iop)
    | .identifier leftIdent, .identifier rightIdent =>
      liftSingle (mapExprToDoubleFieldError ctx leftIdent rightIdent op)
    | _, _ => .notApplicable
  | _ => .notApplicable

/-- Evaluation of a rendered comparison on two present values. -/
def evalCmpOp : CmpOp → Int → Int → Bool
  | .eqeq, a, b => a == b
  | .neq, a, b => a != b
  | .ltOp, a, b => decide (a < b)
  | .leOp, a, b => decide (a ≤ b)
  | .gtOp, a, b => decide (b < a)
  | .geOp, a, b => decide (b ≤ a)

/-- Semantics of a generated two-field guard: an operand wrapped in
`is_some_and` contributes `false` when its value is absent (mirroring the
nested `is_some_and` closures of the four `compare_op` shapes), and the
comparison runs only when every wrapped operand is present. `lpresent` and
`rpresent` tell whether the optional operands hold a value; unwrapped
operands are always present (non-nullable or guaranteed by context). -/
def evalGuard (g : GuardedCompare) (lpresent rpresent : Bool) (lval rval : Int) : Bool :=
  if g.leftWrapped && !lpresent then false
  else if g.rightWrapped && !rpresent then false
  else evalCmpOp g.cmp lval rval

/-- Modelled from the spec: `ColumnLike::non_tautological_check_constraints`
of the external collaborator — the check constraints referencing this column
that are not tautological (spec section 3: a constraint "may be tautological
... and excluded from codegen"). -/
def columnNonTautologicalConstraints (tbl : Table) (col : Column) :
    List CheckConstraint :=
  (tbl.checkConstraints.filter (fun cc => cc.columnNames.contains col.name)).filter
    (fun cc => !cc.isTautological)

/-- `ColumnSynLike::generate_contextual_validations`
(src/synql/src/traits/column.rs lines 429-458): iterates the column's
non-tautological check constraints, skipping constraints with at most one
referenced column, mutual-nullability constraints, and constraints
referencing a primary-key column while the table has a surrogate primary key;
the loop with `continue`s is rendered as a filter. The source pushes
`check_constraint.to_syn(database, workspace, [self])` for each retained
constraint, so the returned constraints identify the generated validations
one-to-one and in order; `check_constraint.columns(database)` resolves the
referenced names inside the owning table. -/
def generateContextualValidations (tbl : Table) (col : Column) :
    List CheckConstraint :=
  (columnNonTautologicalConstraints tbl col).filter (fun cc =>
    if cc.columnNames.length ≤ 1 then false
    else if cc.isMutualNullability then false
    else if (cc.columnNames.filterMap tbl.findColumn).any
        (fun c2 => c2.isPrimaryKey && tbl.hasSurrogatePrimaryKey) then false
    else true)

/-- Claim-side definition, following the wording of claim C2: the comparison
operator "with sides swapped", exchanging strictly-less with strictly-greater
and less-or-equal with greater-or-equal, leaving equality and inequality
unchanged. -/
def swapOperator : BinaryOperator → BinaryOperator
  | .lt => .gt
  | .gt => .lt
  | .ltEq => .gtEq
  | .gtEq => .ltEq
  | other => other

/-- The six supported comparison operators of the claims. -/
def isComparisonOperator : BinaryOperator → Bool
  | .eq | .notEq | .lt | .ltEq | .gt | .gtEq => true
  | _ => false

/-- Claim-side definition, following the wording of claim C4: the AND
simplification on the operands' generated code text — either side literally
`false` gives `false`, one side literally `true` gives the other side, and
otherwise the two codes are joined by the conjunction operator. -/
def specFoldAnd (l r : String) : String :=
  if l = "false" || r = "false" then "false"
  else if l = "true" then r
  else if r = "true" then l
  else l ++ " && " ++ r

/-- Claim-side definition, following the wording of claim C4: the OR
simplification — either side literally `true` gives `true`, one side
literally `false` gives the other side, and otherwise the codes are joined by
the disjunction operator. -/
def specFoldOr (l r : String) : String :=
  if l = "true" || r = "true" then "true"
  else if l = "false" then r
  else if r = "false" then l
  else l ++ " || " ++ r

/-- Claim-side definition, following the wording of claim C5: the negated
guard operator (Lt emits ge, LtEq emits gt, Gt emits le, GtEq emits lt, NotEq
emits eq) of a two-column comparison. -/
def negatedGuardOp : BinaryOperator → Option CmpOp
  | .lt => some .geOp
  | .ltEq => some .gtOp
  | .gt => some .leOp
  | .gtEq => some .ltOp
  | .notEq => some .eqeq
  | _ => none

/-- Claim-side definition, following the wording of claim C5: the relational
error corresponding to each two-column comparison operator. -/
def relErrOf : BinaryOperator → Option RelErr
  | .lt => some .strictlySmallerThan
  | .ltEq => some .smallerThan
  | .gt => some .strictlyGreaterThan
  | .gtEq => some .greaterThan
  | .notEq => some .equalErr
  | _ => none

/-- Fixture: a non-nullable integer primary-key column. -/
def wColId : Column :=
  { name := "id", isPrimaryKey := true, isTextual := false, isNullable := false,
    extType := some .i32Type }

/-- Fixture: a non-nullable integer column `a`. -/
def wColA : Column :=
  { name := "a", isPrimaryKey := false, isTextual := false, isNullable := false,
    extType := some .i32Type }

/-- Fixture: a nullable integer column `b`. -/
def wColB : Column :=
  { name := "b", isPrimaryKey := false, isTextual := false, isNullable := true,
    extType := some .i32Type }

/-- Fixture: a translation context over columns `a` and `b` with no
contextual columns. -/
def wCtx : TranslateCtx :=
  { tableName := "t", columns := [wColA, wColB], contextualColumns := [],
    functions := [] }

/-- Fixture: a denied table `d`. -/
def wTblD : Table :=
  { name := "d", columns := [wColId], foreignKeys := [], checkConstraints := [],
    hasSurrogatePrimaryKey := false }

/-- Fixture: a table referencing `d` through a foreign key. -/
def wTblA : Table :=
  { name := "a_tbl", columns := [wColId],
    foreignKeys := [(⟨["id"], "d", ["id"]⟩ : ForeignKey)],
    checkConstraints := [], hasSurrogatePrimaryKey := false }

/-- Fixture: a two-table database with the edge `a_tbl -> d`. -/
def wDb : Database :=
  { catalogName := "cat", tables := [wTblD, wTblA], roots := [] }

/-- Fixture: a configuration denying table `d`. -/
def wCfg : SynQLConfig :=
  { name := some "ws", denyList := [wTblD], version := (0, 1, 0), edition := 2024,
    generateWorkspaceToml := true, generateRustfmt := false, sinkCrateName := none,
    dagSinkPart := none, clearExisting := false, memberPaths := [], path := "out",
    crateBasePath := "." }

/-- Fixture: a table with 129 columns. -/
def wBigTable : Table :=
  { name := "big", columns := List.replicate 129 wColId, foreignKeys := [],
    checkConstraints := [], hasSurrogatePrimaryKey := false }

/-- Fixture: a database holding only the 129-column table. -/
def wBigDb : Database :=
  { catalogName := "cat", tables := [wBigTable], roots := [] }

/-- Fixture: a configuration with an empty deny list. -/
def wEmptyCfg : SynQLConfig :=
  { name := some "ws", denyList := [], version := (0, 1, 0), edition := 2024,
    generateWorkspaceToml := false, generateRustfmt := false, sinkCrateName := none,
    dagSinkPart := none, clearExisting := false, memberPaths := [], path := "out",
    crateBasePath := "." }

/-- Fixture: a configuration whose workspace name contains a space. -/
def wBadNameCfg : SynQLConfig :=
  { name := some "bad name", denyList := [], version := (0, 1, 0), edition := 2024,
    generateWorkspaceToml := false, generateRustfmt := false, sinkCrateName := none,
    dagSinkPart := none, clearExisting := false, memberPaths := [], path := "out",
    crateBasePath := "." }

/-- Fixture: a single textual primary-key column. -/
def wListCol : Column :=
  { name := "nm", isPrimaryKey := true, isTextual := true, isNullable := false,
    extType := some .stringType }

/-- Fixture: a candidate table-list table. -/
def wListTbl : Table :=
  { name := "vl", columns := [wListCol], foreignKeys := [], checkConstraints := [],
    hasSurrogatePrimaryKey := false }

/-- Fixture: a root table referencing the table-list candidate. -/
def wRootTbl : Table :=
  { name := "root", columns := [wColId],
    foreignKeys := [(⟨["ln"], "vl", ["nm"]⟩ : ForeignKey)],
    checkConstraints := [], hasSurrogatePrimaryKey := false }

/-- Fixture: a database where `root` is a root table referencing `vl`. -/
def wListDb : Database :=
  { catalogName := "cat", tables := [wListTbl, wRootTbl], roots := ["root"] }

/-- Fixture: a two-column non-tautological check constraint. -/
def wCc : CheckConstraint :=
  { ccName := "cc1", expression := .otherExpr "x", columnNames := ["a", "b"],
    isTautological := false, isMutualNullability := false }

/-- Fixture: a table owning the two-column check constraint. -/
def wCcTbl : Table :=
  { name := "t", columns := [wColA, wColB], foreignKeys := [],
    checkConstraints := [wCc], hasSurrogatePrimaryKey := false }

/-- Fixture: a non-nullable boolean column `flag`. -/
def wColFlag : Column :=
  { name := "flag", isPrimaryKey := false, isTextual := false, isNullable := false,
    extType := some .boolType }

/-- Fixture: a translation context over the boolean column `flag`. -/
def wBoolCtx : TranslateCtx :=
  { tableName := "t", columns := [wColFlag], contextualColumns := [],
    functions := [] }

/-- `depends_on` is reflexive: a table depends on itself, which is what makes
the deny-list exclude the denied table itself. -/
theorem dependsOnName_refl (db : Database) (a : String) :
    dependsOnName db a a = true := by
  simp [dependsOnName]

/-- `skip_table` only consults the table's name. -/
theorem skipTable_eq_of_name (db : Database) (cfg : SynQLConfig) (t1 t2 : Table)
    (h : t1.name = t2.name) : skipTable db cfg t1 = skipTable db cfg t2 := by
  simp only [skipTable, Table.dependsOn, h]

/-- A name every bearer of which is skipped does not appear among the names
of the tables surviving the skip filter. -/
theorem name_not_mem_filtered (db : Database) (cfg : SynQLConfig)
    (lst : List Table) (nm : String)
    (h : ∀ t : Table, t.name = nm → skipTable db cfg t = true) :
    nm ∉ (lst.filter (fun t => !skipTable db cfg t)).map Table.name := by
  intro hmem
  obtain ⟨t, htmem, hname⟩ := List.mem_map.mp hmem
  obtain ⟨-, hskip⟩ := List.mem_filter.mp htmem
  rw [h t hname] at hskip
  simp at hskip

/-- Claim C1: for every table of the deny list D and every table T, T is
excluded from generation (skipped, its per-table crate not emitted, and
omitted from the workspace member list) whenever T depends, directly or
through any foreign-key chain, on D; and D itself is excluded. -/
theorem denied_subtree_excluded (db : Database) (cfg : SynQLConfig) (D T : Table)
    (hD : D ∈ cfg.denyList) (hdep : T.dependsOn db D = true) :
    skipTable db cfg T = true
    ∧ T.name ∉ generatedTableNames db cfg
    ∧ T.name ∉ workspaceMemberTableNames db cfg
    ∧ skipTable db cfg D = true
    ∧ D.name ∉ generatedTableNames db cfg
    ∧ D.name ∉ workspaceMemberTableNames db cfg := by
  have hT : skipTable db cfg T = true := by
    rw [skipTable, List.any_eq_true]
    exact ⟨D, hD, hdep⟩
  have hDskip : skipTable db cfg D = true := by
    rw [skipTable, List.any_eq_true]
    exact ⟨D, hD, dependsOnName_refl db D.name⟩
  have hTname : ∀ t : Table, t.name = T.name → skipTable db cfg t = true := by
    intro t ht
    rw [skipTable_eq_of_name db cfg t T ht]
    exact hT
  have hDname : ∀ t : Table, t.name = D.name → skipTable db cfg t = true := by
    intro t ht
    rw [skipTable_eq_of_name db cfg t D ht]
    exact hDskip
  exact ⟨hT,
    name_not_mem_filtered db cfg db.tableDag T.name hTname,
    name_not_mem_filtered db cfg db.tables T.name hTname,
    hDskip,
    name_not_mem_filtered db cfg db.tableDag D.name hDname,
    name_not_mem_filtered db cfg db.tables D.name hDname⟩

/-- Witness for claim C1 at a concrete schema: in `wDb` the table `a_tbl`
references the denied table `d`, and both are excluded. -/
theorem denied_subtree_excluded_witness :
    skipTable wDb wCfg wTblA = true
    ∧ "a_tbl" ∉ generatedTableNames wDb wCfg
    ∧ "d" ∉ generatedTableNames wDb wCfg :=
  have h := denied_subtree_excluded wDb wCfg wTblD wTblA
    (by simp [wCfg]) (by decide)
  ⟨h.1, h.2.1, h.2.2.2.2.1⟩

/-- Claim C2: for every supported comparison operator, column identifier and
literal, compiling `a OP lit` and compiling the mirrored `lit OP' a` (OP'
being OP with sides swapped) produce identical generated validation results —
in particular the same error constructor and the same threshold value, since
the results are equal as generated validation blocks. -/
theorem mirrored_comparison_identical (ctx : TranslateCtx) (a : String)
    (v : Value) (op : BinaryOperator) (hop : isComparisonOperator op = true) :
    mapExprToValidationError ctx (.binaryOp (.identifier a) op (.exprValue v))
      = mapExprToValidationError ctx
          (.binaryOp (.exprValue v) (swapOperator op) (.identifier a)) := by
  cases op <;> first | rfl | simp [isComparisonOperator] at hop

/-- Witness for claim C2: `a <= 10` and `10 >= a` compile identically. -/
theorem mirrored_comparison_identical_witness :
    mapExprToValidationError wCtx
        (.binaryOp (.identifier "a") .ltEq (.exprValue (.number "10")))
      = mapExprToValidationError wCtx
          (.binaryOp (.exprValue (.number "10")) .gtEq (.identifier "a")) :=
  mirrored_comparison_identical wCtx "a" (.number "10") .ltEq (by decide)

/-- The source's AND folding match equals the claim-side simplification. -/
theorem foldAndCode_eq_specFoldAnd (l r : String) :
    foldAndCode l r = specFoldAnd l r := by
  rw [foldAndCode.eq_def, specFoldAnd]
  split <;> simp_all

/-- The source's OR folding match equals the claim-side simplification. -/
theorem foldOrCode_eq_specFoldOr (l r : String) :
    foldOrCode l r = specFoldOr l r := by
  rw [foldOrCode.eq_def, specFoldOr]
  split <;> simp_all

/-- Claim C4 (amended): an AND (resp. OR) whose two operands infer to
boolean and whose compiled operands carry no scoped columns compiles to the
constant-folded simplification of the operands' generated code text;
compilation fails fatally when an operand does not type-check to boolean,
and also when an operand carries scoped columns (e.g. a bare boolean column
identifier), which the source rejects with "Scoped columns not supported". -/
theorem and_or_folding (ctx : TranslateCtx) (e1 e2 : Expr) (hint : Option ExtType)
    (l r : String) (sc1 sc2 : List String) (ot1 ot2 : Option ExtType)
    (h1 : innerParse ctx e1 none = some (l, sc1, ot1))
    (h2 : innerParse ctx e2 none = some (r, sc2, ot2)) :
    (∀ t1 t2 : ExtType, sc1 = [] → sc2 = [] → ot1 = some t1 → ot2 = some t2 →
      t1.isBool = true → t2.isBool = true →
      innerParse ctx (.binaryOp e1 .andOp e2) hint
          = some (specFoldAnd l r, [], some ExtType.boolType)
        ∧ innerParse ctx (.binaryOp e1 .orOp e2) hint
          = some (specFoldOr l r, [], some ExtType.boolType))
    ∧ (∀ t1 t2 : ExtType, sc1 = [] → sc2 = [] → ot1 = some t1 → ot2 = some t2 →
      (t1.isBool && t2.isBool) = false →
      innerParse ctx (.binaryOp e1 .andOp e2) hint = none
        ∧ innerParse ctx (.binaryOp e1 .orOp e2) hint = none)
    ∧ ((sc1.isEmpty && sc2.isEmpty) = false →
      innerParse ctx (.binaryOp e1 .andOp e2) hint = none
        ∧ innerParse ctx (.binaryOp e1 .orOp e2) hint = none) := by
  refine ⟨?_, ?_, ?_⟩
  · intro t1 t2 hsc1 hsc2 hot1 hot2 hb1 hb2
    subst hsc1; subst hsc2; subst hot1; subst hot2
    constructor
    · rw [innerParse.eq_def]
      simp only [h1, h2, List.isEmpty_nil, Bool.not_true, Bool.or_self,
        Bool.false_eq_true, if_false, hb1, hb2, Bool.and_self, if_true,
        foldAndCode_eq_specFoldAnd]
    · rw [innerParse.eq_def]
      simp only [h1, h2, List.isEmpty_nil, Bool.not_true, Bool.or_self,
        Bool.false_eq_true, if_false, hb1, hb2, Bool.and_self, if_true,
        foldOrCode_eq_specFoldOr]
  · intro t1 t2 hsc1 hsc2 hot1 hot2 hb
    subst hsc1; subst hsc2; subst hot1; subst hot2
    constructor
    · rw [innerParse.eq_def]
      simp [h1, h2, hb]
    · rw [innerParse.eq_def]
      simp [h1, h2, hb]
  · intro hsc
    constructor
    · rw [innerParse.eq_def]
      simp only [h1, h2]
      cases hse1 : sc1.isEmpty <;> cases hse2 : sc2.isEmpty <;> simp_all
    · rw [innerParse.eq_def]
      simp only [h1, h2]
      cases hse1 : sc1.isEmpty <;> cases hse2 : sc2.isEmpty <;> simp_all

/-- Counterexample to claim C4 as stated: in `wBoolCtx` the left operand
`flag` of `flag AND false` is a bare boolean column identifier, so both
operands infer to boolean, yet `inner_parse` fails fatally ("Scoped columns
not supported", translate_expression.rs lines 702-704) instead of producing
the folded simplification `false`. -/
theorem and_or_folding_counterexample :
    innerParse wBoolCtx (.identifier "flag") none
        = some ("flag", ["flag"], some ExtType.boolType)
    ∧ innerParse wBoolCtx (.exprValue (.boolean false)) none
        = some ("false", [], some ExtType.boolType)
    ∧ innerParse wBoolCtx
        (.binaryOp (.identifier "flag") .andOp (.exprValue (.boolean false))) none
        = none
    ∧ ¬(innerParse wBoolCtx
          (.binaryOp (.identifier "flag") .andOp (.exprValue (.boolean false))) none
        = some (specFoldAnd "flag" "false", [], some ExtType.boolType)) := by
  have hL : innerParse wBoolCtx (.identifier "flag") none
      = some ("flag", ["flag"], some ExtType.boolType) := by
    rw [innerParse.eq_def]
    simp [wBoolCtx, wColFlag, TranslateCtx.findColumn, Column.snakeIdent,
      List.find?]
    decide
  have hR : innerParse wBoolCtx (.exprValue (.boolean false)) none
      = some ("false", [], some ExtType.boolType) := by
    simp [innerParse, parseValue]
  have hAnd : innerParse wBoolCtx
      (.binaryOp (.identifier "flag") .andOp (.exprValue (.boolean false))) none
      = none := by
    rw [innerParse.eq_def]
    simp [hL, hR]
  exact ⟨hL, hR, hAnd, by rw [hAnd]; simp⟩

/-- Witness for claim C4 (amended): in `wCtx`, `(b IS NULL) AND false` has
scoped-column-free boolean operands and folds to the literal `false`. -/
theorem and_or_folding_witness :
    innerParse wCtx
        (.binaryOp (.isNull (.identifier "b")) .andOp (.exprValue (.boolean false)))
        none
      = some (specFoldAnd "b.is_none()" "false", [], some ExtType.boolType) :=
  ((and_or_folding wCtx (.isNull (.identifier "b")) (.exprValue (.boolean false))
      none "b.is_none()" "false" [] [] (some .boolType) (some .boolType)
      (by
        simp [innerParse, wCtx, wColA, wColB, TranslateCtx.findColumn,
          TranslateCtx.isContextualColumn, Column.snakeIdent, List.find?]
        decide)
      (by simp [innerParse, parseValue])).1
    .boolType .boolType rfl rfl rfl rfl rfl rfl).1

/-- Claim C5: a two-column comparison compiles to a guard testing the
negation of the operator with the corresponding relational error carrying
both column names; a nullable operand outside the contextual-columns set is
wrapped in an `is_some_and` presence check, and an absent wrapped value can
never trigger the violation. -/
theorem double_field_negated_guard (ctx : TranslateCtx) (ln rn : String)
    (lc rc : Column) (op : BinaryOperator) (g : CmpOp) (er : RelErr)
    (hl : ctx.findColumn ln = some lc) (hr : ctx.findColumn rn = some rc)
    (hg : negatedGuardOp op = some g) (he : relErrOf op = some er) :
    mapExprToDoubleFieldError ctx ln rn op
        = some (.doubleField
            { tableName := ctx.tableIdent
              err := er
              guard :=
                { leftColumn := lc.snakeIdent
                  rightColumn := rc.snakeIdent
                  cmp := g
                  leftWrapped := lc.isNullable && !(ctx.isContextualColumn lc)
                  rightWrapped := rc.isNullable && !(ctx.isContextualColumn rc) } })
    ∧ ((lc.isNullable && !(ctx.isContextualColumn lc)) = true →
        ∀ rpresent lval rval,
          evalGuard
            { leftColumn := lc.snakeIdent
              rightColumn := rc.snakeIdent
              cmp := g
              leftWrapped := lc.isNullable && !(ctx.isContextualColumn lc)
              rightWrapped := rc.isNullable && !(ctx.isContextualColumn rc) }
            false rpresent lval rval = false)
    ∧ ((rc.isNullable && !(ctx.isContextualColumn rc)) = true →
        ∀ lpresent lval rval,
          evalGuard
            { leftColumn := lc.snakeIdent
              rightColumn := rc.snakeIdent
              cmp := g
              leftWrapped := lc.isNullable && !(ctx.isContextualColumn lc)
              rightWrapped := rc.isNullable && !(ctx.isContextualColumn rc) }
            lpresent false lval rval = false) := by
  refine ⟨?_, ?_, ?_⟩
  · cases op <;> simp_all [mapExprToDoubleFieldError, negatedGuardOp, relErrOf]
  · intro hw rpresent lval rval
    simp [evalGuard, hw]
  · intro hw lpresent lval rval
    cases hlw : lc.isNullable && !(ctx.isContextualColumn lc) <;>
      simp [evalGuard, hw, hlw]

/-- Witness for claim C5: `a < b` over a non-nullable `a` and a nullable,
non-contextual `b` compiles to the `>=` guard with the right operand wrapped
in a presence check and the strictly-smaller-than error. -/
theorem double_field_negated_guard_witness :
    mapExprToDoubleFieldError wCtx "a" "b" .lt
      = some (.doubleField
          { tableName := "t"
            err := .strictlySmallerThan
            guard :=
              { leftColumn := "a", rightColumn := "b", cmp := .geOp,
                leftWrapped := false, rightWrapped := true } })
    ∧ (∀ lpresent lval rval,
        evalGuard
          { leftColumn := "a", rightColumn := "b", cmp := .geOp,
            leftWrapped := false, rightWrapped := true }
          lpresent false lval rval = false) :=
  have h := double_field_negated_guard wCtx "a" "b" wColA wColB .lt .geOp
    .strictlySmallerThan (by decide) (by decide) rfl rfl
  ⟨h.1, fun lpresent lval rval => h.2.2 (by decide) lpresent lval rval⟩

/-- A bound is exceeded by the running maximum exactly when some list element
exceeds it. -/
theorem listMax_lt_iff (c : Nat) (l : List Nat) :
    c < listMax l ↔ ∃ x ∈ l, c < x := by
  induction l with
  | nil => simp [listMax]
  | cons a t ih =>
    rw [show listMax (a :: t) = max a (listMax t) from rfl, lt_max_iff, ih]
    simp

/-- `listMax` over mapped counts, phrased on the underlying tables. -/
theorem listMax_map_lt_iff (c : Nat) (f : Table → Nat) (l : List Table) :
    c < listMax (l.map f) ↔ ∃ t ∈ l, c < f t := by
  rw [listMax_lt_iff]
  simp

/-- A column count above 128 is rejected with `TooManyColumns`. -/
theorem tryFromColumns_gt (n : Nat) (h : 128 < n) :
    tryFromColumns n = .error (.tooManyColumns n) := by
  unfold tryFromColumns
  split_ifs <;> first | rfl | omega

/-- A column count of at most 128 selects the smallest sufficient tier among
16, 32, 64 and 128. -/
theorem tier_selection (n : Nat) (h : n ≤ 128) :
    ∃ tier, tryFromColumns n = .ok tier
      ∧ tier.toNat ∈ [16, 32, 64, 128]
      ∧ n ≤ tier.toNat
      ∧ ∀ m ∈ [16, 32, 64, 128], n ≤ m → tier.toNat ≤ m := by
  by_cases h16 : n ≤ 16
  · refine ⟨.columns16, by simp [tryFromColumns, h16], by simp [MaximalNumberOfColumns.toNat], ?_, ?_⟩
    · simpa [MaximalNumberOfColumns.toNat] using h16
    · intro m hm _
      fin_cases hm <;> simp [MaximalNumberOfColumns.toNat]
  · by_cases h32 : n ≤ 32
    · refine ⟨.columns32, by simp [tryFromColumns, h16, h32], by simp [MaximalNumberOfColumns.toNat], ?_, ?_⟩
      · simpa [MaximalNumberOfColumns.toNat] using h32
      · intro m hm hnm
        fin_cases hm <;> simp_all [MaximalNumberOfColumns.toNat]
    · by_cases h64 : n ≤ 64
      · refine ⟨.columns64, by simp [tryFromColumns, h16, h32, h64], by simp [MaximalNumberOfColumns.toNat], ?_, ?_⟩
        · simpa [MaximalNumberOfColumns.toNat] using h64
        · intro m hm hnm
          fin_cases hm <;> simp_all [MaximalNumberOfColumns.toNat]
      · refine ⟨.columns128, by simp [tryFromColumns, h16, h32, h64, h], by simp [MaximalNumberOfColumns.toNat], ?_, ?_⟩
        · simpa [MaximalNumberOfColumns.toNat] using h
        · intro m hm hnm
          fin_cases hm <;> simp_all [MaximalNumberOfColumns.toNat]

/-- Claim C6: `generate` returns a too-many-columns error exactly when some
admitted table has more than 128 columns or some admitted table's
ancestor-extended hierarchy totals more than 128 columns; in that case the
error precedes every filesystem effect; otherwise the selected tier is the
smallest of 16, 32, 64, 128 at least the column count. -/
theorem generate_column_limit (db : Database) (cfg : SynQLConfig) (clock : Nat → Nat) :
    ((∃ n, (generate db cfg clock).2 = .errored (.tooManyColumns n)) ↔
      (∃ t ∈ admittedTables db cfg, 128 < t.numberOfColumns)
        ∨ (∃ t ∈ admittedTables db cfg, 128 < hierarchyColumns db t))
    ∧ (((∃ t ∈ admittedTables db cfg, 128 < t.numberOfColumns)
          ∨ (∃ t ∈ admittedTables db cfg, 128 < hierarchyColumns db t)) →
        (generate db cfg clock).1 = [])
    ∧ (∀ n, n ≤ 128 → ∃ tier, tryFromColumns n = .ok tier
        ∧ tier.toNat ∈ [16, 32, 64, 128] ∧ n ≤ tier.toNat
        ∧ ∀ m ∈ [16, 32, 64, 128], n ≤ m → tier.toNat ≤ m) := by
  have hm1 : (128 < maxAdmittedColumns db cfg) ↔
      ∃ t ∈ admittedTables db cfg, 128 < t.numberOfColumns :=
    listMax_map_lt_iff 128 Table.numberOfColumns (admittedTables db cfg)
  have hm2 : (128 < maxHierarchyColumns db cfg) ↔
      ∃ t ∈ admittedTables db cfg, 128 < hierarchyColumns db t :=
    listMax_map_lt_iff 128 (hierarchyColumns db) (admittedTables db cfg)
  by_cases h1 : 128 < maxAdmittedColumns db cfg
  · have hgen : generate db cfg clock
        = ([], .errored (.tooManyColumns (maxAdmittedColumns db cfg))) := by
      unfold generate
      rw [tryFromColumns_gt _ h1]
    refine ⟨⟨fun _ => Or.inl (hm1.mp h1), fun _ => ?_⟩, fun _ => ?_,
      fun n hn => tier_selection n hn⟩
    · exact ⟨maxAdmittedColumns db cfg, by rw [hgen]⟩
    · rw [hgen]
  · obtain ⟨t1, ht1, -⟩ := tier_selection (maxAdmittedColumns db cfg) (by omega)
    by_cases h2 : 128 < maxHierarchyColumns db cfg
    · have hgen : generate db cfg clock
          = ([], .errored (.tooManyColumns (maxHierarchyColumns db cfg))) := by
        unfold generate
        rw [ht1, tryFromColumns_gt _ h2]
      refine ⟨⟨fun _ => Or.inr (hm2.mp h2), fun _ => ?_⟩, fun _ => ?_,
        fun n hn => tier_selection n hn⟩
      · exact ⟨maxHierarchyColumns db cfg, by rw [hgen]⟩
      · rw [hgen]
    · obtain ⟨t2, ht2, -⟩ := tier_selection (maxHierarchyColumns db cfg) (by omega)
      have hnoerr : ∀ n, ¬((generate db cfg clock).2 = .errored (.tooManyColumns n)) := by
        intro n
        unfold generate
        rw [ht1, ht2]
        cases hsn : workspaceBuilderDefault.setName (cfg.name.getD db.catalogName) <;>
          simp
      refine ⟨⟨fun hex => ?_, fun hcond => ?_⟩, fun hcond => ?_,
        fun n hn => tier_selection n hn⟩
      · obtain ⟨n, hn⟩ := hex
        exact absurd hn (hnoerr n)
      · rcases hcond with hc | hc
        · exact absurd (hm1.mpr hc) h1
        · exact absurd (hm2.mpr hc) h2
      · rcases hcond with hc | hc
        · exact absurd (hm1.mpr hc) h1
        · exact absurd (hm2.mpr hc) h2

/-- Witness for claim C6: a 129-column table makes `generate` fail with the
too-many-columns error before any filesystem effect. -/
theorem generate_column_limit_witness :
    (generate wBigDb wEmptyCfg (fun _ => 0)).1 = []
    ∧ ∃ n, (generate wBigDb wEmptyCfg (fun _ => 0)).2
        = .errored (.tooManyColumns n) :=
  have hbig : ∃ t ∈ admittedTables wBigDb wEmptyCfg, 128 < t.numberOfColumns :=
    ⟨wBigTable, by simp [admittedTables, wBigDb, wEmptyCfg, skipTable],
      by simp [Table.numberOfColumns, wBigTable]⟩
  have h := generate_column_limit wBigDb wEmptyCfg (fun _ => 0)
  ⟨h.2.1 (Or.inl hbig), h.1.mpr (Or.inl hbig)⟩

/-- Claim C7: `c IS NULL` / `c IS NOT NULL` over a column identifier fails
fatally on a non-nullable column; on a nullable contextual column it compiles
to the constant `false` / `true`; on a nullable non-contextual column it
compiles to `c.is_none()` / `c.is_some()`; in every successful case the
inferred type is boolean. -/
theorem is_null_translation (ctx : TranslateCtx) (cname : String)
    (hint : Option ExtType) (c : Column) (hc : ctx.findColumn cname = some c) :
    (c.isNullable = false →
      innerParse ctx (.isNull (.identifier cname)) hint = none
        ∧ innerParse ctx (.isNotNull (.identifier cname)) hint = none)
    ∧ (c.isNullable = true → ctx.isContextualColumn c = true →
      innerParse ctx (.isNull (.identifier cname)) hint
          = some ("false", [], some ExtType.boolType)
        ∧ innerParse ctx (.isNotNull (.identifier cname)) hint
          = some ("true", [], some ExtType.boolType))
    ∧ (c.isNullable = true → ctx.isContextualColumn c = false →
      innerParse ctx (.isNull (.identifier cname)) hint
          = some (c.snakeIdent ++ ".is_none()", [], some ExtType.boolType)
        ∧ innerParse ctx (.isNotNull (.identifier cname)) hint
          = some (c.snakeIdent ++ ".is_some()", [], some ExtType.boolType)) := by
  refine ⟨fun hnul => ⟨?_, ?_⟩, fun hnul hctx => ⟨?_, ?_⟩, fun hnul hctx => ⟨?_, ?_⟩⟩ <;>
    (rw [innerParse.eq_def]; simp [hc, hnul]) <;> simp [hctx]

/-- Witness for claim C7: the nullable, non-contextual column `b` compiles to
`b.is_none()` / `b.is_some()`. -/
theorem is_null_translation_witness :
    innerParse wCtx (.isNull (.identifier "b")) none
        = some (wColB.snakeIdent ++ ".is_none()", [], some ExtType.boolType)
    ∧ innerParse wCtx (.isNotNull (.identifier "b")) none
        = some (wColB.snakeIdent ++ ".is_some()", [], some ExtType.boolType) :=
  (is_null_translation wCtx "b" none wColB (by decide)).2.2 rfl (by decide)

/-- Claim C3: `is_table_list_like(T, db)` is true exactly when T has exactly
one column, that column is a textual primary key, and some root table has a
foreign-key chain reaching T; in every other case it is false. -/
theorem table_list_iff (db : Database) (t : Table) :
    t.isTableListLike db = true ↔
      ((∃ c, t.columns = [c] ∧ c.isPrimaryKey = true ∧ c.isTextual = true)
        ∧ ∃ r ∈ db.rootTablesList, r.refersTo db t = true) := by
  unfold Table.isTableListLike
  cases hcols : t.columns with
  | nil => simp [Table.numberOfColumns, hcols]
  | cons c rest =>
    cases rest with
    | nil =>
      cases hpk : c.isPrimaryKey <;> cases htx : c.isTextual <;>
        simp [Table.numberOfColumns, hcols, List.head?, hpk, htx,
          List.any_eq_true]
    | cons d rest2 => simp [Table.numberOfColumns, hcols]

/-- Witness for claim C3: in `wListDb` the single-textual-primary-key table
`vl` referenced by the root table `root` is a table list. -/
theorem table_list_iff_witness : wListTbl.isTableListLike wListDb = true :=
  (table_list_iff wListDb wListTbl).mpr
    ⟨⟨wListCol, rfl, rfl, rfl⟩,
      wRootTbl, by simp [Database.rootTablesList, wListDb, wListTbl, wRootTbl],
      by decide⟩

/-- Claim C8: generation is deterministic — the emitted filesystem effects
(paths and full file contents of every artifact) are a pure function of the
database and the configuration, independent of the environment `generate`
observes through the clock; two runs with the same inputs produce identical
artifacts byte for byte. -/
theorem generation_deterministic (db : Database) (cfg : SynQLConfig)
    (clock1 clock2 : Nat → Nat) :
    (generate db cfg clock1).1 = (generate db cfg clock2).1 := by
  unfold generate
  cases tryFromColumns (maxAdmittedColumns db cfg) with
  | error e => rfl
  | ok t1 =>
    cases tryFromColumns (maxHierarchyColumns db cfg) with
    | error e => rfl
    | ok t2 =>
      cases workspaceBuilderDefault.setName (cfg.name.getD db.catalogName) with
      | error e => rfl
      | ok wb => rfl

/-- Claim C9: the contextual validations generated for a column include a
check constraint exactly when it references the column, is non-tautological,
references strictly more than one column, is not a mutual-nullability
constraint, and references no primary-key column while the table has a
surrogate primary key; every other constraint of the column is omitted. -/
theorem contextual_validation_membership (tbl : Table) (col : Column)
    (cc : CheckConstraint) :
    cc ∈ generateContextualValidations tbl col ↔
      (cc ∈ tbl.checkConstraints ∧ cc.columnNames.contains col.name = true
        ∧ cc.isTautological = false
        ∧ 1 < cc.columnNames.length
        ∧ cc.isMutualNullability = false
        ∧ ∀ c2 ∈ cc.columnNames.filterMap tbl.findColumn,
            ¬(c2.isPrimaryKey = true ∧ tbl.hasSurrogatePrimaryKey = true)) := by
  unfold generateContextualValidations columnNonTautologicalConstraints
  simp only [List.mem_filter]
  constructor
  · rintro ⟨⟨⟨hmem, hcont⟩, htaut⟩, hpred⟩
    split_ifs at hpred with hlen hmut hany
    refine ⟨hmem, hcont, by simpa using htaut, by omega, by simpa using hmut, ?_⟩
    intro c2 hc2 hps
    exact hany (List.any_eq_true.mpr ⟨c2, hc2, by simp [hps.1, hps.2]⟩)
  · rintro ⟨hmem, hcont, htaut, hlen, hmut, hforall⟩
    refine ⟨⟨⟨hmem, hcont⟩, by simp [htaut]⟩, ?_⟩
    split_ifs with h1 h2 h3
    · exact absurd h1 (by omega)
    · simp [hmut] at h2
    · obtain ⟨c2, hc2, hp⟩ := List.any_eq_true.mp h3
      simp only [Bool.and_eq_true] at hp
      exact absurd ⟨hp.1, hp.2⟩ (hforall c2 hc2)
    · rfl

/-- Witness for claim C9: the two-column non-tautological constraint of
`wCcTbl` is included in the contextual validations of column `a`. -/
theorem contextual_validation_membership_witness :
    wCc ∈ generateContextualValidations wCcTbl wColA :=
  (contextual_validation_membership wCcTbl wColA wCc).mpr
    ⟨by simp [wCcTbl], by decide, rfl, by decide, rfl, by
      intro c2 hc2 hps
      simp [wCc, wCcTbl, Table.findColumn, wColA, wColB, List.find?] at hc2
      rcases hc2 with h | h <;> rw [h] at hps <;> simp [wColA, wColB] at hps⟩

/-- Claim C10: `WorkspaceBuilder::name` fails with `InvalidName` exactly when
the name trims to empty or contains a space; any other name is stored and
reported verbatim; and `generate` panics (instead of returning a typed error)
when the configured workspace name is invalid. -/
theorem workspace_name_rules (b : WorkspaceBuilder) (n : String)
    (db : Database) (cfg : SynQLConfig) (clock : Nat → Nat)
    (hname : cfg.name = some n)
    (hm1 : maxAdmittedColumns db cfg ≤ 128)
    (hm2 : maxHierarchyColumns db cfg ≤ 128) :
    (∀ n2 : String, b.setName n2 = .error .invalidName ↔
        (n2.trim.isEmpty || n2.contains (' ')) = true)
    ∧ (∀ n2 : String, (n2.trim.isEmpty || n2.contains (' ')) = false →
        ∃ b2, b.setName n2 = .ok b2 ∧ b2.name = n2)
    ∧ ((n.trim.isEmpty || n.contains (' ')) = true →
        generate db cfg clock = ([], .panicked "Invalid workspace name")) := by
  refine ⟨?_, ?_, ?_⟩
  · intro n2
    unfold WorkspaceBuilder.setName
    split_ifs with hcond <;> simp_all
  · intro n2 hok
    unfold WorkspaceBuilder.setName
    simp [hok]
  · intro hbad
    obtain ⟨t1, ht1, -⟩ := tier_selection _ hm1
    obtain ⟨t2, ht2, -⟩ := tier_selection _ hm2
    have hsn : workspaceBuilderDefault.setName (cfg.name.getD db.catalogName)
        = .error .invalidName := by
      rw [hname]
      simp [WorkspaceBuilder.setName, Option.getD, hbad]
    unfold generate
    rw [ht1, ht2, hsn]

/-- Witness for claim C10: the name `"bad name"` is rejected by the builder
and makes `generate` panic on the fixture database. -/
theorem workspace_name_rules_witness :
    workspaceBuilderDefault.setName "bad name"
        = .error .invalidName
    ∧ generate wDb wBadNameCfg (fun _ => 0)
        = ([], .panicked "Invalid workspace name") :=
  have hbad : ("bad name".trim.isEmpty || "bad name".contains (' ')) = true := by
    have hc : "bad name".contains (' ') = true := by
      rw [String.contains_iff]
      decide
    simp [hc]
  have h := workspace_name_rules workspaceBuilderDefault "bad name" wDb
    wBadNameCfg (fun _ => 0) rfl (by decide) (by decide)
  ⟨(h.1 "bad name").mpr hbad, h.2.2 hbad⟩
